import Mathlib

/-!
Verification development for the junk-dispatch webhook relay.

The repository is a set of successive revisions of one Express server
(`src/server.js` being the main file, `src/unnamed/part_000 .. part_003`
earlier iterations).  The server receives JSON webhook events, extracts
fields through fallback chains, correlates call ids with generated job
ids in an in-memory `Map`, normalizes structured data into a fixed
spreadsheet row, and relays the row to a configured sink URL.

This file gives a shallow embedding of those parts:

* `JVal` models JavaScript/JSON values; a missing property (JS
  `undefined`) is modelled as `Option.none` wherever the source can
  observe it.
* `jsToString`, `jsJoin`, `JVal.truthy` model JS string interpolation,
  `Array.prototype.join`, and truthiness.
* The field extractors (`getCallId`, `getToolCalls`, `getToolName`,
  `getToolArgs`, `getToolCallId`), the normalizer
  (`buildPayloadFromStructuredData`), the job-id generator
  (`generateJobId`), the sheet relay (`postToSheet`, and the older
  `postToSheet001` from `src/unnamed/part_001`), and the
  `POST /vapi/webhook` handler (`vapiWebhook`) are translated
  line-by-line from the source.
* External nondeterminism (the runtime clock, `Math.random`, `fetch`
  responses, `JSON.parse`) is passed in explicitly through `ToolCtx`:
  `Math.random()` is represented by the list of significant base-36
  digits of the drawn double in `[0,1)` (doubles are dyadic rationals,
  so their canonical base-36 expansion is finite), and `fetch` by a
  stream of `FetchOutcome`s indexed by the relay-call counter.
-/

namespace JD

/-- JavaScript/JSON values.  JS `undefined` is not a constructor: a
missing property is `Option.none` at each use site, matching how the
source observes it through `?.` chains and `||` fallbacks. -/
inductive JVal where
  | null : JVal
  | bool : Bool → JVal
  | num : Int → JVal
  | str : String → JVal
  | arr : List JVal → JVal
  | obj : List (String × JVal) → JVal

/-- JS truthiness of a defined value: `null`, `false`, `0` and `""` are
falsy; every array and object (including empty ones) is truthy. -/
def JVal.truthy : JVal → Bool
  | .null => false
  | .bool b => b
  | .num n => decide (n ≠ 0)
  | .str s => decide (s ≠ "")
  | .arr _ => true
  | .obj _ => true

/-- First binding of a key in an object's field list (JS object keys are
unique, so first-match lookup is JS property lookup). -/
def lookupField : List (String × JVal) → String → Option JVal
  | [], _ => none
  | (k0, v) :: rest, k => if k0 = k then some v else lookupField rest k

/-- JS property access `v?.k`: defined only on objects; on `null`,
primitives and arrays the properties used by this program are absent. -/
def getProp : JVal → String → Option JVal
  | .obj fs, k => lookupField fs k
  | _, _ => none

/-- Optional chain `m?.a?.b`. -/
def optChain2 (m : JVal) (a b : String) : Option JVal :=
  (getProp m a).bind (fun v => getProp v b)

/-- Optional chain `m?.a?.b?.c`. -/
def optChain3 (m : JVal) (a b c : String) : Option JVal :=
  ((getProp m a).bind (fun v => getProp v b)).bind (fun v => getProp v c)

/-- JS `a || b` where `a` may be `undefined` (`none`): the left value if
it is defined and truthy, else the right value. -/
def jsOrV (o : Option JVal) (b : JVal) : JVal :=
  match o with
  | some v => if v.truthy then v else b
  | none => b

/-- Truthiness of a possibly-undefined value (`undefined` is falsy). -/
def truthyO (o : Option JVal) : Bool :=
  match o with
  | some v => v.truthy
  | none => false

/-- JS strict equality `v === s` against a string literal. -/
def isStr (v : JVal) (s : String) : Bool :=
  match v with
  | .str t => decide (t = s)
  | _ => false

/-- JS strict equality `o === s` for a possibly-undefined value. -/
def isStrP (o : Option JVal) (s : String) : Bool :=
  match o with
  | some v => isStr v s
  | _ => false

mutual

/-- JS `String(v)` / template-literal interpolation of a defined value. -/
def jsToString : JVal → String
  | .null => "null"
  | .bool b => cond b "true" "false"
  | .num n => toString n
  | .str s => s
  | .arr xs => jsArrToString xs
  | .obj _ => "[object Object]"

/-- `Array.prototype.toString`: elements joined with `","`, with `null`
elements rendered as the empty string. -/
def jsArrToString : List JVal → String
  | [] => ""
  | [v] => jsElemToString v
  | v :: vs => jsElemToString v ++ "," ++ jsArrToString vs

/-- Element rendering inside `Array.prototype.join`/`toString`. -/
def jsElemToString : JVal → String
  | .null => ""
  | .bool b => cond b "true" "false"
  | .num n => toString n
  | .str s => s
  | .arr xs => jsArrToString xs
  | .obj _ => "[object Object]"

end

/-- JS `xs.join(sep)`. -/
def jsJoin (sep : String) (xs : List JVal) : String :=
  String.intercalate sep (xs.map jsElemToString)

/-- Interpolation of a possibly-undefined value (JS renders `undefined`
as the string "undefined"). -/
def jsToStringO (o : Option JVal) : String :=
  match o with
  | some v => jsToString v
  | none => "undefined"

/-- The value of a possibly-undefined slot, defaulting to `null`; only
used where the surrounding guard guarantees definedness. -/
def jValOf (o : Option JVal) : JVal := o.getD .null

/-- Whether a possibly-undefined value is exactly a given string. -/
def strEqO (o : Option JVal) (s : String) : Bool :=
  match o with
  | some v => isStr v s
  | none => false

/-! ### Job-id generation (`server.js` lines 57-59)

`generateJobId` is `"job_" + Math.random().toString(36).slice(2, 9)`.
A double in `[0,1)` is a dyadic rational, so its canonical base-36
expansion is finite; we represent the drawn value by that list of
significant fraction digits (empty for the value `0`).  `toString(36)`
then prints `"0"` for zero and `"0." ++ digits` otherwise, and
`slice(2, 9)` keeps at most the first seven fraction digits. -/

/-- Base-36 digit character: `0-9` then `a-z` (JS `Number.toString(36)`
uses lower-case letters). -/
def digitChar (d : Nat) : Char :=
  if d < 10 then Char.ofNat (48 + d) else Char.ofNat (87 + d)

/-- Characters of `x.toString(36)` for `x` in `[0,1)` represented by its
significant base-36 fraction digits. -/
def toString36Chars (ds : List Nat) : List Char :=
  match ds with
  | [] => ['0']
  | _ => '0' :: '.' :: ds.map digitChar

/-- JS `String.prototype.slice(a, b)` on a character list (for the
indices used here: `0 ≤ a ≤ b`). -/
def jsSliceChars (l : List Char) (a b : Nat) : List Char :=
  (l.drop a).take (b - a)

/-- `generateJobId` from `server.js` (the same expression appears inline
in `src/unnamed/part_003` line 167):
`"job_" + Math.random().toString(36).slice(2, 9)`. -/
def generateJobId (ds : List Nat) : String :=
  "job_" ++ String.mk (jsSliceChars (toString36Chars ds) 2 9)

/-- A base-36 digit character (`0-9` or `a-z`), by character code. -/
def isBase36Char (c : Char) : Bool :=
  (48 ≤ c.toNat && c.toNat ≤ 57) || (97 ≤ c.toNat && c.toNat ≤ 122)

/-! ### Field extractors (`server.js` lines 64-96) -/

/-- `getCallId` (`server.js` lines 64-73). -/
def getCallId (m : JVal) : JVal :=
  jsOrV (optChain2 m "call" "id")
    (jsOrV (getProp m "callId")
      (jsOrV (getProp m "call_id")
        (jsOrV (optChain3 m "message" "call" "id")
          (jsOrV (optChain3 m "event" "call" "id") (.str "")))))

/-- `getToolCalls` (`server.js` lines 75-84). -/
def getToolCalls (m : JVal) : JVal :=
  jsOrV (getProp m "toolCalls")
    (jsOrV (getProp m "tool_calls")
      (jsOrV (optChain2 m "message" "toolCalls")
        (jsOrV (optChain2 m "message" "tool_calls") (.arr []))))

/-- `getToolName` (`server.js` lines 86-88). -/
def getToolName (tc : JVal) : JVal :=
  jsOrV (getProp tc "name")
    (jsOrV (getProp tc "toolName")
      (jsOrV (optChain2 tc "function" "name") (.str "")))

/-- `getToolArgs` (`server.js` lines 90-92). -/
def getToolArgs (tc : JVal) : JVal :=
  jsOrV (getProp tc "args")
    (jsOrV (getProp tc "arguments")
      (jsOrV (optChain2 tc "function" "arguments") (.obj [])))

/-- `getToolCallId` (`server.js` lines 94-96). -/
def getToolCallId (tc : JVal) : JVal :=
  jsOrV (getProp tc "id")
    (jsOrV (getProp tc "toolCallId")
      (jsOrV (getProp tc "tool_call_id") (.str "")))

/-! ### Payload normalizer (`server.js` lines 98-143) -/

/-- A normalized record: a JS object literal, kept as its field list. -/
abbrev Payload := List (String × JVal)

/-- The `phone` local of `buildPayloadFromStructuredData`
(`server.js` lines 99-102, textually identical in
`src/unnamed/part_003` lines 46-50):
`sd?.callbackNumber && sd.callbackNumber !== "Same number"
  ? sd.callbackNumber : (sd?.phone || sd?.from || "")`. -/
def jsPhone (sd : JVal) : JVal :=
  match getProp sd "callbackNumber" with
  | some cb =>
      if cb.truthy && !(isStr cb "Same number") then cb
      else jsOrV (getProp sd "phone") (jsOrV (getProp sd "from") (.str ""))
  | none => jsOrV (getProp sd "phone") (jsOrV (getProp sd "from") (.str ""))

/-- The `specialItemsText` local (`server.js` lines 104-106):
`Array.isArray(sd?.specialItems) ? sd.specialItems.join(", ")
  : (sd?.specialItems || "")`. -/
def jsSpecialItemsText (sd : JVal) : JVal :=
  match getProp sd "specialItems" with
  | some (.arr xs) => .str (jsJoin ", " xs)
  | o => jsOrV o (.str "")

/-- The `scopeParts` local (`server.js` lines 109-116): six segment
expressions, then `.filter(Boolean)` which drops exactly the empty
strings. -/
def jsScopeParts (sd : JVal) : List String :=
  ([ (match getProp sd "jobType" with
      | some v => if v.truthy then "jobType: " ++ jsToString v else ""
      | none => ""),
     (match getProp sd "location" with
      | some v => if v.truthy then "location: " ++ jsToString v else ""
      | none => ""),
     (match getProp sd "size" with
      | some v => if v.truthy then "size: " ++ jsToString v else ""
      | none => ""),
     (match getProp sd "access" with
      | some v =>
          if v.truthy then
            "access: " ++ (match v with | .arr xs => jsJoin ", " xs | w => jsToString w)
          else ""
      | none => ""),
     (if (jsSpecialItemsText sd).truthy
      then "specialItems: " ++ jsToString (jsSpecialItemsText sd) else ""),
     (match getProp sd "deadline" with
      | some v => if v.truthy then "deadline: " ++ jsToString v else ""
      | none => "") ]).filter (fun s => s ≠ "")

/-- `buildPayloadFromStructuredData` (`server.js` lines 98-143).  The
`new Date().toISOString()` timestamp is the injected `now`. -/
def buildPayloadFromStructuredData (sd : JVal) (jobId : String) (now : String) : Payload :=
  [ ("Job ID", .str jobId),
    ("Created At", .str now),
    ("Source", jsOrV (getProp sd "source") (.str "vapi")),
    ("Customer Name", jsOrV (getProp sd "name") (.str "")),
    ("Customer Phone", jsPhone sd),
    ("Customer Email", jsOrV (getProp sd "email") (.str "")),
    ("Service Address", jsOrV (getProp sd "serviceAddress") (jsOrV (getProp sd "address") (.str ""))),
    ("City/ZIP", jsOrV (getProp sd "cityZip") (jsOrV (getProp sd "city") (jsOrV (getProp sd "zip") (.str "")))),
    ("Job Type", jsOrV (getProp sd "jobType") (.str "")),
    ("Items / Scope Description", .str (String.intercalate " | " (jsScopeParts sd))),
    ("Preferred Timing", jsOrV (getProp sd "preferredWindow") (.str "")),
    ("Urgent (Y/N)", .str (if truthyO (getProp sd "urgent") || truthyO (getProp sd "urgent_flag") then "Y" else "N")),
    ("Photos Link", jsOrV (getProp sd "photoLink") (.str "")),
    ("Intake Notes", jsOrV (getProp sd "intakeNotes") (.str "")),
    ("Status", jsOrV (getProp sd "status") (.str "New")) ]

/-- JS object-literal update `{...p, k: v}`: replace the first binding
of `k` in place, else append (object keys are unique, later literal
keys overwrite earlier ones keeping their position). -/
def objSet : Payload → String → JVal → Payload
  | [], k, v => [(k, v)]
  | (k0, v0) :: rest, k, v =>
      if k0 = k then (k, v) :: rest else (k0, v0) :: objSet rest k v

/-- Iterated `objSet`, for spreads with several override keys. -/
def objSets (p : Payload) (updates : List (String × JVal)) : Payload :=
  updates.foldl (fun q kv => objSet q kv.1 kv.2) p

/-! ### The correlation table (`server.js` line 62: `const callToJob = new Map()`) -/

/-- The in-memory call-to-job `Map`, as an association list. -/
abbrev CorrTable := List (String × String)

/-- `Map.prototype.get`: the value stored for a key, if any. -/
def mapGet : CorrTable → String → Option String
  | [], _ => none
  | (k0, v0) :: rest, k => if k0 = k then some v0 else mapGet rest k

/-- `Map.prototype.set`: overwrite the binding of `k` in place, else
append. -/
def mapSet : CorrTable → String → String → CorrTable
  | [], k, v => [(k, v)]
  | (k0, v0) :: rest, k, v =>
      if k0 = k then (k, v) :: rest else (k0, v0) :: mapSet rest k v

/-- Number of entries stored under a key. -/
def countKey : CorrTable → String → Nat
  | [], _ => 0
  | (k0, _) :: rest, k => (if k0 = k then 1 else 0) + countKey rest k

/-! ### The sheet relay (`server.js` lines 28-55, `src/unnamed/part_001` lines 11-29) -/

/-- Outcome of the `fetch` call to the sink: either the promise rejects
(network failure) or the sink responds with a status and a body text
(`r.text()` resolving to `""` on failure, via its `.catch`). -/
inductive FetchOutcome where
  | netErr : FetchOutcome
  | resp : Nat → String → FetchOutcome

/-- An error thrown out of the relay: the rejected `fetch`, or the
`Error` built from the sink's status and response body
(`throw new Error(...)` with the failed status and text). -/
inductive SheetErr where
  | network : SheetErr
  | badStatus : Nat → String → SheetErr

/-- A non-throwing relay outcome of `server.js`'s `postToSheet`:
the `{skipped: true}` degraded-mode result, or the (best-effort
parsed) response body. -/
inductive SheetOk where
  | skipped : SheetOk
  | json : JVal → SheetOk

/-- The JS value a `SheetOk` stands for (used when the handler embeds
the relay result into a tool-call reply). -/
def sheetOkToJVal : SheetOk → JVal
  | .skipped => .obj [("skipped", .bool true)]
  | .json v => v

/-- `!SHEETS_WEBHOOK_URL`: the env var is unset or the empty string. -/
def urlMissing : Option String → Bool
  | none => true
  | some s => decide (s = "")

/-- `Response.ok`: status in the 200-299 range. -/
def statusOk (s : Nat) : Bool := 200 ≤ s && s ≤ 299

/-- `postToSheet` from `server.js` lines 28-55.  `JSON.parse` is the
runtime's parser, passed in as `parse` (returning `none` where
`JSON.parse` would throw); the posted payload only influences the
sink's answer, which is already summarized by the `FetchOutcome`. -/
def postToSheet (url : Option String) (parse : String → Option JVal)
    (f : FetchOutcome) : Except SheetErr SheetOk :=
  if urlMissing url then .ok .skipped
  else
    match f with
    | .netErr => .error .network
    | .resp status text =>
        let j : JVal :=
          match parse text with
          | some v => v
          | none => .obj [("raw", .str text)]
        if statusOk status then .ok (.json j)
        else .error (.badStatus status text)

/-- `postToSheet` from the earlier revision `src/unnamed/part_001`
lines 11-29: same skip condition and same throw on a non-success
status, but the function never parses the body and returns
`undefined` (here `none`) on both the skip path and the success
path. -/
def postToSheet001 (url : Option String) (f : FetchOutcome) :
    Except SheetErr (Option JVal) :=
  if urlMissing url then .ok none
  else
    match f with
    | .netErr => .error .network
    | .resp status text =>
        if statusOk status then .ok none
        else .error (.badStatus status text)

/-! ### The `POST /vapi/webhook` handler (`server.js` lines 156-312) -/

/-- JS `String.prototype.trim()`: strip leading and trailing
whitespace (modelled for the whitespace characters `Char.isWhitespace`
recognizes, which covers the ASCII whitespace the payloads use). -/
def jsTrim (s : String) : String :=
  String.mk (((s.data.dropWhile fun c => c.isWhitespace).reverse.dropWhile
    fun c => c.isWhitespace).reverse)

/-- `process.env.BASE_URL || "https://example.com"` (`server.js`
line 17). -/
def resolveBaseUrl : Option String → String
  | some s => if s = "" then "https://example.com" else s
  | none => "https://example.com"

/-- `Array.isArray(toolCalls) && toolCalls.length > 0`, keeping the
elements when the test passes. -/
def asToolList : JVal → Option (List JVal)
  | .arr (x :: xs) => some (x :: xs)
  | _ => none

/-- `String(getCallId(message) || "").trim()` (`server.js` line 165;
`getCallId` already ends its fallback chain in `""`, so the extra
`|| ""` is the identity). -/
def extractCallId (m : JVal) : String :=
  jsTrim (jsToString (getCallId m))

/-- `String(args.callId || callId || "").trim()` (`server.js` lines 175
and 228; `callId` is already a string, so `callId || ""` is the
identity). -/
def resolveCallIdArg (args : JVal) (callId : String) : String :=
  jsTrim (jsToString (jsOrV (getProp args "callId") (.str callId)))

/-- `message?.analysis?.structuredData ||
message?.message?.analysis?.structuredData || args`
(`server.js` lines 190-193 and 242-245). -/
def structuredDataOf (m args : JVal) : JVal :=
  jsOrV (optChain2 m "analysis" "structuredData")
    (jsOrV (optChain3 m "message" "analysis" "structuredData") args)

/-- `(callId && callToJob.get(callId))` as used on `server.js` line 289:
the stored job id when the call id is non-empty, a mapping exists and
the stored value is truthy (a non-empty string); `none` otherwise. -/
def lookupUsable (t : CorrTable) (c : String) : Option String :=
  if c = "" then none
  else
    match mapGet t c with
    | some j => if j = "" then none else some j
    | none => none

/-- Per-request environment and external nondeterminism: configuration
(`SHEETS_WEBHOOK_URL`, `BASE_URL`), the `Math.random` digit stream
indexed by draw counter, `JSON.parse`, the per-relay-call `fetch`
outcomes, and the clock. -/
structure ToolCtx where
  sheetsUrl : Option String
  baseUrlEnv : Option String
  rnd : Nat → List Nat
  parse : String → Option JVal
  fetch : Nat → FetchOutcome
  now : String

/-- The server's mutable state: the correlation table and the number of
`Math.random` draws made so far. -/
structure ServerState where
  table : CorrTable
  k : Nat

/-- State threaded through the tool-call loop (`server.js` lines
166-277): the accumulated `toolCallResults`, the table, the draw
counter, and the payloads handed to `postToSheet` so far. -/
structure LoopSt where
  results : List JVal
  table : CorrTable
  k : Nat
  sent : List Payload

/-- An HTTP response as produced by the handler. -/
structure HttpResponse where
  status : Nat
  body : JVal

/-- A handler run: the response, the state left behind, and the
normalized records handed to the relay. -/
structure VapiOut where
  resp : HttpResponse
  table : CorrTable
  k : Nat
  sent : List Payload

/-- `toolCallResults.push({toolCallId, result})`. -/
def pushResult (a : LoopSt) (tcid result : JVal) : LoopSt :=
  { a with results := a.results ++ [.obj [("toolCallId", tcid), ("result", result)]] }

/-- The entry pushed for an unhandled tool (`server.js` lines 272-277). -/
def unknownEntry (tc : JVal) : JVal :=
  .obj [("toolCallId", getToolCallId tc),
        ("result", .obj [("ok", .bool false),
                         ("error", .str ("Unhandled tool: " ++ jsToString (getToolName tc)))])]

/-- One iteration of the tool-call loop (`server.js` lines 168-277). -/
def processToolCall (ctx : ToolCtx) (callId : String) (m : JVal)
    (a : LoopSt) (tc : JVal) : LoopSt :=
  let toolName := getToolName tc
  let args := getToolArgs tc
  let toolCallId := getToolCallId tc
  if isStr toolName "create_intake" then
    let resolvedCallId := resolveCallIdArg args callId
    if resolvedCallId = "" then
      pushResult a toolCallId (.obj [("ok", .bool false), ("error", .str "Missing callId")])
    else
      let pair : String × Nat :=
        match mapGet a.table resolvedCallId with
        | some s => if s = "" then (generateJobId (ctx.rnd a.k), a.k + 1) else (s, a.k)
        | none => (generateJobId (ctx.rnd a.k), a.k + 1)
      let jobId := pair.1
      let table1 := mapSet a.table resolvedCallId jobId
      let sd := structuredDataOf m args
      let photosLink := jsOrV (getProp sd "photoLink")
        (.str (resolveBaseUrl ctx.baseUrlEnv ++ "/upload?job=" ++ jobId))
      let payload := objSets (buildPayloadFromStructuredData sd jobId ctx.now)
        [("Call ID", .str resolvedCallId), ("callId", .str resolvedCallId),
         ("Photos Link", photosLink), ("Webhook Event", .str "tool-create_intake")]
      let result : JVal :=
        match postToSheet ctx.sheetsUrl ctx.parse (ctx.fetch a.sent.length) with
        | .ok r => .obj [("ok", .bool true), ("jobId", .str jobId),
                         ("photoLink", photosLink), ("sheet", sheetOkToJVal r)]
        | .error _ => .obj [("ok", .bool false), ("error", .str "Sheet write failed (create_intake)")]
      { results := a.results ++ [.obj [("toolCallId", toolCallId), ("result", result)]],
        table := table1, k := pair.2, sent := a.sent ++ [payload] }
  else if isStr toolName "update_intake" then
    let resolvedCallId := resolveCallIdArg args callId
    let mapped : Option String :=
      if resolvedCallId = "" then none else mapGet a.table resolvedCallId
    let jobId := jsTrim (jsToString (jsOrV (getProp args "jobId")
      (jsOrV (getProp args "Job ID") (jsOrV (mapped.map JVal.str) (.str "")))))
    if jobId = "" then
      pushResult a toolCallId
        (.obj [("ok", .bool false), ("error", .str "Missing jobId (and no callId→jobId mapping found)")])
    else
      let table1 := if resolvedCallId = "" then a.table else mapSet a.table resolvedCallId jobId
      let sd := structuredDataOf m args
      let payload := objSets (buildPayloadFromStructuredData sd jobId ctx.now)
        [("Call ID", .str resolvedCallId), ("callId", .str resolvedCallId),
         ("Webhook Event", .str "tool-update_intake")]
      let result : JVal :=
        match postToSheet ctx.sheetsUrl ctx.parse (ctx.fetch a.sent.length) with
        | .ok r => .obj [("ok", .bool true), ("jobId", .str jobId), ("sheet", sheetOkToJVal r)]
        | .error _ => .obj [("ok", .bool false), ("error", .str "Sheet write failed (update_intake)")]
      { results := a.results ++ [.obj [("toolCallId", toolCallId), ("result", result)]],
        table := table1, k := a.k, sent := a.sent ++ [payload] }
  else
    pushResult a toolCallId
      (.obj [("ok", .bool false), ("error", .str ("Unhandled tool: " ++ jsToString toolName))])

/-- The `POST /vapi/webhook` handler (`server.js` lines 156-312).  The
outer `try/catch` maps any uncaught throw to `200 "ok"`; every branch
of the embedded body is total and already answers 200, so the wrapper
is the identity here.  The tool-call branch answers
`{toolCallResults}`; the `end-of-call-report` branch posts a final
snapshot without touching the table; everything else just answers
`"ok"`. -/
def vapiWebhook (ctx : ToolCtx) (st : ServerState) (m : JVal) : VapiOut :=
  match asToolList (getToolCalls m) with
  | some tcs =>
      let f := tcs.foldl (processToolCall ctx (extractCallId m) m)
        ⟨[], st.table, st.k, []⟩
      ⟨⟨200, .obj [("toolCallResults", .arr f.results)]⟩, f.table, f.k, f.sent⟩
  | none =>
      if isStrP (getProp m "type") "end-of-call-report" then
        let sd := jsOrV (optChain2 m "analysis" "structuredData") (.obj [])
        let c := extractCallId m
        let pair : String × Nat :=
          match lookupUsable st.table c with
          | some j => (j, st.k)
          | none => (generateJobId (ctx.rnd st.k), st.k + 1)
        let payload := objSets (buildPayloadFromStructuredData sd pair.1 ctx.now)
          [("Call ID", .str c), ("callId", .str c), ("Webhook Event", .str "call-end")]
        ⟨⟨200, .str "ok"⟩, st.table, pair.2, [payload]⟩
      else
        ⟨⟨200, .str "ok"⟩, st.table, st.k, []⟩

/-! ### `GET /health` -/

/-- The `/health` handler of `server.js` lines 146-148 (the revisions
`part_001`, `part_002` and `part_003` have the same handler):
`res.status(200).send("ok")`. -/
def healthServer : HttpResponse := ⟨200, .str "ok"⟩

/-- The `/health` handler of the `src/unnamed/part_000` revision,
lines 112-114: `res.json({ ok: true, env: NODE_ENV || "unknown" })`
(`res.json` answers with status 200). -/
def healthPart000 (nodeEnv : Option String) : HttpResponse :=
  ⟨200, .obj [("ok", .bool true),
              ("env", .str (match nodeEnv with
                            | some s => if s = "" then "unknown" else s
                            | none => "unknown"))]⟩

/-! ### Claim-side characterizations

These definitions follow the wording of the specification (for the
refinement claims about the normalizer); they are compared against the
source-derived definitions above. -/

/-- The phone rule as the spec words it: the callback number when it is
present (read as: defined and truthy) and not the literal placeholder
"Same number"; otherwise the phone field, otherwise the from field,
otherwise the empty string. -/
def phoneSpec (sd : JVal) : JVal :=
  if truthyO (getProp sd "callbackNumber")
      && !(strEqO (getProp sd "callbackNumber") "Same number") then
    jValOf (getProp sd "callbackNumber")
  else if truthyO (getProp sd "phone") then jValOf (getProp sd "phone")
  else if truthyO (getProp sd "from") then jValOf (getProp sd "from")
  else .str ""

/-- A scope segment rendered "label: value", present iff the field's
value is defined and truthy. -/
def renderSeg (label : String) (o : Option JVal) : String :=
  if truthyO o then label ++ ": " ++ jsToStringO o else ""

/-- The access segment: rendered whenever the raw `access` value is
truthy (a JS empty array is truthy), the value joined with ", " when
it is a list. -/
def accessSeg (sd : JVal) : String :=
  if truthyO (getProp sd "access") then
    "access: " ++ (match getProp sd "access" with
                   | some (.arr xs) => jsJoin ", " xs
                   | o => jsToStringO o)
  else ""

/-- The specialItems segment: the value is first rendered (lists joined
with ", "), and the segment is present iff that rendering is truthy
— so an empty `specialItems` list is omitted. -/
def specialItemsSeg (sd : JVal) : String :=
  if (jsSpecialItemsText sd).truthy
  then "specialItems: " ++ jsToString (jsSpecialItemsText sd) else ""

/-- The scope description: the non-empty segments, in the fixed order
jobType, location, size, access, specialItems, deadline, joined with
" | ". -/
def scopeSpec (sd : JVal) : String :=
  String.intercalate " | "
    (([ renderSeg "jobType" (getProp sd "jobType"),
        renderSeg "location" (getProp sd "location"),
        renderSeg "size" (getProp sd "size"),
        accessSeg sd,
        specialItemsSeg sd,
        renderSeg "deadline" (getProp sd "deadline") ]).filter (fun s => s ≠ ""))

/-- Field lookup on a JS value that should be an object. -/
def getFieldJ (v : JVal) (k : String) : Option JVal :=
  match v with
  | .obj fs => lookupField fs k
  | _ => none

/-- What the tool-call loop owes each element of the tool-call list: one
reply entry carrying the element's extracted tool-call id, and, when
the tool name is neither `create_intake` nor `update_intake`, exactly
the `Unhandled tool` error entry. -/
def toolEntryMatches (tc e : JVal) : Prop :=
  getFieldJ e "toolCallId" = some (getToolCallId tc)
  ∧ (isStr (getToolName tc) "create_intake" = false →
     isStr (getToolName tc) "update_intake" = false →
     e = unknownEntry tc)

/-! ### Helper lemmas -/

theorem lookupField_objSet_ne (p : Payload) (k : String) (v : JVal) (k1 : String)
    (h : k1 ≠ k) : lookupField (objSet p k v) k1 = lookupField p k1 := by
  induction p with
  | nil => simp [objSet, lookupField, Ne.symm h]
  | cons hd tl ih =>
      obtain ⟨k0, v0⟩ := hd
      by_cases hk : k0 = k
      · subst hk
        simp [objSet, lookupField, Ne.symm h]
      · simp [objSet, lookupField, hk, ih]

theorem lookupField_objSets_ne (ups : List (String × JVal)) (p : Payload) (k1 : String)
    (h : ∀ kv ∈ ups, k1 ≠ kv.1) :
    lookupField (objSets p ups) k1 = lookupField p k1 := by
  induction ups generalizing p with
  | nil => rfl
  | cons hd tl ih =>
      have h1 : k1 ≠ hd.1 := h hd (List.mem_cons_self hd tl)
      have h2 : ∀ kv ∈ tl, k1 ≠ kv.1 := fun kv hm => h kv (List.mem_cons_of_mem hd hm)
      calc lookupField (objSets p (hd :: tl)) k1
          = lookupField (objSets (objSet p hd.1 hd.2) tl) k1 := rfl
        _ = lookupField (objSet p hd.1 hd.2) k1 := ih (objSet p hd.1 hd.2) h2
        _ = lookupField p k1 := lookupField_objSet_ne p hd.1 hd.2 k1 h1

theorem mapGet_mapSet_self (t : CorrTable) (k v : String) :
    mapGet (mapSet t k v) k = some v := by
  induction t with
  | nil => simp [mapSet, mapGet]
  | cons hd tl ih =>
      obtain ⟨k0, v0⟩ := hd
      by_cases hk : k0 = k
      · simp [mapSet, mapGet, hk]
      · simp [mapSet, mapGet, hk, ih]

theorem countKey_mapSet (t : CorrTable) (k v : String) (h : countKey t k ≤ 1) :
    countKey (mapSet t k v) k = 1 := by
  induction t with
  | nil => simp [mapSet, countKey]
  | cons hd tl ih =>
      obtain ⟨k0, v0⟩ := hd
      by_cases hk : k0 = k
      · subst hk
        simp [countKey] at h
        have h0 : countKey tl k0 = 0 := by omega
        simp [mapSet, countKey, h0]
      · simp [countKey, hk] at h
        simp [mapSet, countKey, hk, ih h]

theorem generateJobId_ne_empty (ds : List Nat) : generateJobId ds ≠ "" := by
  intro h
  have hl := congrArg String.length h
  rw [generateJobId, String.length_append] at hl
  have h4 : ("job_").length = 4 := rfl
  have h0 : ("" : String).length = 0 := rfl
  rw [h4, h0] at hl
  omega

theorem jsOrV_chain (ph fr : Option JVal) :
    jsOrV ph (jsOrV fr (.str "")) =
      (if truthyO ph then jValOf ph
       else if truthyO fr then jValOf fr
       else .str "") := by
  cases ph with
  | none =>
      cases fr with
      | none => rfl
      | some v => by_cases hv : v.truthy <;> simp [jsOrV, truthyO, jValOf, hv]
  | some v =>
      by_cases hv : v.truthy
      · simp [jsOrV, truthyO, jValOf, hv]
      · cases fr with
        | none => simp [jsOrV, truthyO, jValOf, hv]
        | some w => by_cases hw : w.truthy <;> simp [jsOrV, truthyO, jValOf, hv, hw]

theorem jsPhone_eq_phoneSpec (sd : JVal) : jsPhone sd = phoneSpec sd := by
  unfold jsPhone phoneSpec
  cases hcb : getProp sd "callbackNumber" with
  | none => simp [truthyO, strEqO, jValOf, jsOrV_chain]
  | some cb =>
      by_cases ht : cb.truthy && !(isStr cb "Same number")
      · simp [truthyO, strEqO, jValOf, ht]
      · simp [truthyO, strEqO, jValOf, ht, jsOrV_chain]

theorem jsScopeParts_eq (sd : JVal) :
    jsScopeParts sd =
      ([ renderSeg "jobType" (getProp sd "jobType"),
         renderSeg "location" (getProp sd "location"),
         renderSeg "size" (getProp sd "size"),
         accessSeg sd,
         specialItemsSeg sd,
         renderSeg "deadline" (getProp sd "deadline") ]).filter (fun s => s ≠ "") := by
  have e1 : (match getProp sd "jobType" with
             | some v => if v.truthy then "jobType: " ++ jsToString v else ""
             | none => "") = renderSeg "jobType" (getProp sd "jobType") := by
    cases getProp sd "jobType" with
    | none => rfl
    | some v => by_cases hv : v.truthy <;> simp [renderSeg, truthyO, jsToStringO, hv]
  have e2 : (match getProp sd "location" with
             | some v => if v.truthy then "location: " ++ jsToString v else ""
             | none => "") = renderSeg "location" (getProp sd "location") := by
    cases getProp sd "location" with
    | none => rfl
    | some v => by_cases hv : v.truthy <;> simp [renderSeg, truthyO, jsToStringO, hv]
  have e3 : (match getProp sd "size" with
             | some v => if v.truthy then "size: " ++ jsToString v else ""
             | none => "") = renderSeg "size" (getProp sd "size") := by
    cases getProp sd "size" with
    | none => rfl
    | some v => by_cases hv : v.truthy <;> simp [renderSeg, truthyO, jsToStringO, hv]
  have e4 : (match getProp sd "access" with
             | some v =>
                 if v.truthy then
                   "access: " ++ (match v with | .arr xs => jsJoin ", " xs | w => jsToString w)
                 else ""
             | none => "") = accessSeg sd := by
    cases ha : getProp sd "access" with
    | none => simp [accessSeg, truthyO, ha]
    | some v =>
        by_cases hv : v.truthy
        · cases v <;> simp [accessSeg, truthyO, jsToStringO, ha, hv] at *
        · simp [accessSeg, truthyO, ha, hv]
  have e6 : (match getProp sd "deadline" with
             | some v => if v.truthy then "deadline: " ++ jsToString v else ""
             | none => "") = renderSeg "deadline" (getProp sd "deadline") := by
    cases getProp sd "deadline" with
    | none => rfl
    | some v => by_cases hv : v.truthy <;> simp [renderSeg, truthyO, jsToStringO, hv]
  unfold jsScopeParts
  rw [e1, e2, e3, e4, e6]
  rfl

/-! ### Claim theorems -/

/-- C2: for every inbound JSON event, the `POST /vapi/webhook` handler
responds with HTTP status 200, whatever the event's shape, the server
state, the configuration and the outcomes of the relay calls. -/
theorem vapi_webhook_always_200 (ctx : ToolCtx) (st : ServerState) (m : JVal) :
    (vapiWebhook ctx st m).resp.status = 200 := by
  unfold vapiWebhook
  cases h : asToolList (getToolCalls m) with
  | none =>
      simp only [h]
      split <;> rfl
  | some tcs => simp only [h]

/-- C3 counterexample: the `postToSheet` of the `src/unnamed/part_001`
revision (cited by the claim) does not wrap an unparsable response
body as `{raw: <text>}`: on a successful status it returns
`undefined` (here `none`), whatever the body text. -/
theorem postToSheet001_no_raw_wrapping :
    postToSheet001 (some "https://sink.example") (.resp 200 "hello") = .ok none
    ∧ (Except.ok none : Except SheetErr (Option JVal))
        ≠ .ok (some (.obj [("raw", .str "hello")])) := by
  refine ⟨rfl, ?_⟩
  simp

/-- C3 amended: `server.js`'s `postToSheet` returns the skipped result
without raising when no sink URL is configured (unset or empty env
var), raises an error carrying the sink's status and response body
exactly when a configured sink responds with a non-success status,
and wraps a body that does not parse as JSON as `{raw: <text>}`; the
earlier `part_001` revision shares the skip condition and the
status-error rule but returns `undefined` on success and never
wraps the body. -/
theorem postToSheet_contract_amended :
    (∀ parse f, postToSheet none parse f = .ok .skipped)
    ∧ (∀ parse f, postToSheet (some "") parse f = .ok .skipped)
    ∧ (∀ s parse status text, urlMissing (some s) = false →
        (postToSheet (some s) parse (.resp status text) = .error (.badStatus status text)
          ↔ statusOk status = false))
    ∧ (∀ s parse status text, urlMissing (some s) = false → statusOk status = true →
        parse text = none →
        postToSheet (some s) parse (.resp status text) = .ok (.json (.obj [("raw", .str text)])))
    ∧ (∀ s status text, urlMissing (some s) = false →
        (postToSheet001 (some s) (.resp status text) = .error (.badStatus status text)
          ↔ statusOk status = false))
    ∧ (∀ f, postToSheet001 none f = .ok none) := by
  refine ⟨fun parse f => rfl, fun parse f => rfl, ?_, ?_, ?_, fun f => rfl⟩
  · intro s parse status text h
    by_cases hs : statusOk status <;> simp [postToSheet, h, hs]
  · intro s parse status text h hs hp
    simp [postToSheet, h, hs, hp]
  · intro s status text h
    by_cases hs : statusOk status <;> simp [postToSheet001, h, hs]

/-- Witness for the amended C3 contract at concrete inputs. -/
theorem postToSheet_contract_amended_witness :
    postToSheet none (fun _ => none) .netErr = .ok .skipped
    ∧ postToSheet (some "u") (fun _ => none) (.resp 500 "boom") = .error (.badStatus 500 "boom")
    ∧ postToSheet (some "u") (fun _ => none) (.resp 200 "hello")
        = .ok (.json (.obj [("raw", .str "hello")]))
    ∧ postToSheet001 (some "u") (.resp 500 "boom") = .error (.badStatus 500 "boom") := by
  refine ⟨postToSheet_contract_amended.1 (fun _ => none) .netErr, ?_, ?_, ?_⟩
  · exact (postToSheet_contract_amended.2.2.1 "u" (fun _ => none) 500 "boom" (by decide)).mpr
      (by decide)
  · exact postToSheet_contract_amended.2.2.2.1 "u" (fun _ => none) 200 "hello" (by decide)
      (by decide) rfl
  · exact (postToSheet_contract_amended.2.2.2.2.1 "u" 500 "boom" (by decide)).mpr (by decide)

/-- C4: the normalizer's "Customer Phone" field follows the claimed
fallback rule — the callback number when it is present (defined and
truthy) and not the literal "Same number", else the phone field, else
the from field, else the empty string — and on the claim's concrete
input `{callbackNumber: "Same number", phone: "555-1234"}` it is
"555-1234". -/
theorem buildPayload_phone_spec :
    (∀ sd jobId now,
      lookupField (buildPayloadFromStructuredData sd jobId now) "Customer Phone"
        = some (phoneSpec sd))
    ∧ lookupField (buildPayloadFromStructuredData
        (.obj [("callbackNumber", .str "Same number"), ("phone", .str "555-1234")])
        "job_x" "2026-01-01") "Customer Phone" = some (.str "555-1234") := by
  constructor
  · intro sd jobId now
    have h0 : lookupField (buildPayloadFromStructuredData sd jobId now) "Customer Phone"
        = some (jsPhone sd) := rfl
    rw [h0, jsPhone_eq_phoneSpec]
  · rfl

/-- C5 counterexample: on `{jobType: "cleanup", access: []}` the scope
description is "jobType: cleanup | access: " — the `access` field has
an empty (empty-list) value, yet it is rendered as a labelled segment
with an empty value instead of being omitted (a JS empty array is
truthy), so the claimed omit-empty rule fails. -/
theorem buildPayload_scope_access_empty_list :
    lookupField (buildPayloadFromStructuredData
        (.obj [("jobType", .str "cleanup"), ("access", .arr [])])
        "job_x" "2026-01-01") "Items / Scope Description"
      = some (.str "jobType: cleanup | access: ")
    ∧ ("jobType: cleanup | access: " : String) ≠ "jobType: cleanup" := by
  exact ⟨rfl, by decide⟩

/-- C5 amended: the scope description is the " | "-join, in the fixed
order jobType, location, size, access, specialItems, deadline, of the
non-empty segments "label: value", where a segment is present iff the
field's value is truthy — so absent, empty-string, zero and false
values are omitted, and an empty `specialItems` list is omitted
(its ", "-join is rendered first), but an empty `access` list, being
truthy, yields the segment "access: " with an empty value.  On the
claim's concrete input the result is
"jobType: cleanup | specialItems: couch, fridge". -/
theorem buildPayload_scope_spec :
    (∀ sd jobId now,
      lookupField (buildPayloadFromStructuredData sd jobId now) "Items / Scope Description"
        = some (.str (scopeSpec sd)))
    ∧ lookupField (buildPayloadFromStructuredData
        (.obj [("jobType", .str "cleanup"),
               ("specialItems", .arr [.str "couch", .str "fridge"])])
        "job_x" "2026-01-01") "Items / Scope Description"
      = some (.str "jobType: cleanup | specialItems: couch, fridge") := by
  constructor
  · intro sd jobId now
    have h0 : lookupField (buildPayloadFromStructuredData sd jobId now)
        "Items / Scope Description"
        = some (.str (String.intercalate " | " (jsScopeParts sd))) := rfl
    rw [h0, jsScopeParts_eq]
    rfl
  · rfl

/-- C7 counterexample: for the random value one half — an exact double,
base-36 expansion "0.i" — the generated id is "job_i", whose suffix
has one character, not seven. -/
theorem generateJobId_short_suffix :
    generateJobId [18] = "job_i" ∧ 18 < 36
    ∧ ("job_i").length ≠ ("job_").length + 7 := by
  exact ⟨rfl, by decide, by decide⟩

/-- C7 amended: every generated job id is "job_" followed by at most 7
base-36 characters; the suffix has exactly 7 characters only when the
random value's base-36 expansion has at least 7 significant digits. -/
theorem generateJobId_format (ds : List Nat) (h : ∀ d ∈ ds, d < 36) :
    ∃ suffix : List Char,
      generateJobId ds = "job_" ++ String.mk suffix
      ∧ suffix.length ≤ 7
      ∧ (7 ≤ ds.length → suffix.length = 7)
      ∧ ∀ c ∈ suffix, isBase36Char c = true := by
  have hdig : ∀ d : Nat, d < 36 → isBase36Char (digitChar d) = true := by decide
  refine ⟨jsSliceChars (toString36Chars ds) 2 9, rfl, ?_, ?_, ?_⟩
  · cases ds with
    | nil => simp [jsSliceChars, toString36Chars]
    | cons d tl =>
        have he : jsSliceChars (toString36Chars (d :: tl)) 2 9
            = ((d :: tl).map digitChar).take 7 := rfl
        rw [he, List.length_take]
        exact Nat.min_le_left _ _
  · intro h7
    cases ds with
    | nil => simp at h7
    | cons d tl =>
        have he : jsSliceChars (toString36Chars (d :: tl)) 2 9
            = ((d :: tl).map digitChar).take 7 := rfl
        rw [he, List.length_take]
        have hlen : ((d :: tl).map digitChar).length = (d :: tl).length :=
          List.length_map _ _
        rw [hlen]
        exact Nat.min_eq_left h7
  · intro c hc
    cases ds with
    | nil => simp [jsSliceChars, toString36Chars] at hc
    | cons d tl =>
        have he : jsSliceChars (toString36Chars (d :: tl)) 2 9
            = ((d :: tl).map digitChar).take 7 := rfl
        rw [he] at hc
        have hc2 : c ∈ (d :: tl).map digitChar := List.take_subset _ _ hc
        obtain ⟨d0, hd0, hcd⟩ := List.mem_map.mp hc2
        rw [← hcd]
        exact hdig d0 (h d0 hd0)

/-- Witness for the amended C7 format at a concrete digit stream. -/
theorem generateJobId_format_witness :
    (∀ d ∈ ([1, 2, 3, 4, 5, 6, 7, 8] : List Nat), d < 36)
    ∧ ∃ suffix : List Char,
        generateJobId [1, 2, 3, 4, 5, 6, 7, 8] = "job_" ++ String.mk suffix
        ∧ suffix.length ≤ 7
        ∧ (7 ≤ ([1, 2, 3, 4, 5, 6, 7, 8] : List Nat).length → suffix.length = 7)
        ∧ ∀ c ∈ suffix, isBase36Char c = true :=
  ⟨by decide, generateJobId_format [1, 2, 3, 4, 5, 6, 7, 8] (by decide)⟩

/-- C8 counterexample: the `/health` handler of the `part_000` revision
(cited by the claim) answers 200, but its body is the JSON object
`{ok: true, env: ...}`, not the string "ok". -/
theorem healthPart000_body_not_ok :
    (healthPart000 none).status = 200 ∧ (healthPart000 none).body ≠ .str "ok" := by
  refine ⟨rfl, ?_⟩
  simp [healthPart000]

/-- C8 amended: every revision's `GET /health` answers 200; the body is
exactly "ok" in `server.js` (and in the `part_001`-`part_003`
revisions, which carry the same handler), while the `part_000`
revision answers with the JSON object `{ok: true, env: NODE_ENV ||
"unknown"}`. -/
theorem health_contract :
    (healthServer.status = 200 ∧ healthServer.body = .str "ok")
    ∧ ∀ env : Option String,
        (healthPart000 env).status = 200
        ∧ (healthPart000 env).body
            = .obj [("ok", .bool true),
                    ("env", .str (match env with
                                  | some s => if s = "" then "unknown" else s
                                  | none => "unknown"))] :=
  ⟨⟨rfl, rfl⟩, fun _ => ⟨rfl, rfl⟩⟩

/-! ### Branch-level lemmas for the webhook handler -/

theorem lookupField_build_jobId (sd : JVal) (jobId now : String) :
    lookupField (buildPayloadFromStructuredData sd jobId now) "Job ID"
      = some (.str jobId) := rfl

theorem jobId_key_create (p : Payload) (v1 v2 v3 v4 : JVal) :
    lookupField (objSets p [("Call ID", v1), ("callId", v2),
      ("Photos Link", v3), ("Webhook Event", v4)]) "Job ID"
      = lookupField p "Job ID" := by
  apply lookupField_objSets_ne
  intro kv hkv
  simp only [List.mem_cons, List.not_mem_nil, or_false] at hkv
  rcases hkv with rfl | rfl | rfl | rfl <;> dsimp only <;> decide

theorem jobId_key_callEnd (p : Payload) (v1 v2 v3 : JVal) :
    lookupField (objSets p [("Call ID", v1), ("callId", v2),
      ("Webhook Event", v3)]) "Job ID"
      = lookupField p "Job ID" := by
  apply lookupField_objSets_ne
  intro kv hkv
  simp only [List.mem_cons, List.not_mem_nil, or_false] at hkv
  rcases hkv with rfl | rfl | rfl <;> dsimp only <;> decide

theorem lookupUsable_mapSet (t : CorrTable) (c jid : String)
    (hc : c ≠ "") (hj : jid ≠ "") :
    lookupUsable (mapSet t c jid) c = some jid := by
  unfold lookupUsable
  rw [if_neg hc, mapGet_mapSet_self]
  simp [hj]

/-- Characterization of the `end-of-call-report` branch: the table is
untouched; exactly one record is relayed, whose "Job ID" is the
stored job id when the extracted call id has a usable mapping (a pure
read), and a fresh draw otherwise; the draw counter moves only in the
latter case. -/
theorem endOfCall_run (ctx : ToolCtx) (st : ServerState) (m : JVal)
    (h4 : asToolList (getToolCalls m) = none)
    (h5 : isStrP (getProp m "type") "end-of-call-report" = true) :
    (vapiWebhook ctx st m).table = st.table
    ∧ (vapiWebhook ctx st m).k
        = (match lookupUsable st.table (extractCallId m) with
           | some _ => st.k
           | none => st.k + 1)
    ∧ ∃ p, (vapiWebhook ctx st m).sent = [p]
        ∧ lookupField p "Job ID"
            = some (.str (match lookupUsable st.table (extractCallId m) with
                          | some j => j
                          | none => generateJobId (ctx.rnd st.k))) := by
  have hb : vapiWebhook ctx st m =
      (let sd := jsOrV (optChain2 m "analysis" "structuredData") (.obj [])
       let c := extractCallId m
       let pair : String × Nat :=
         match lookupUsable st.table c with
         | some j => (j, st.k)
         | none => (generateJobId (ctx.rnd st.k), st.k + 1)
       let payload := objSets (buildPayloadFromStructuredData sd pair.1 ctx.now)
         [("Call ID", .str c), ("callId", .str c), ("Webhook Event", .str "call-end")]
       ⟨⟨200, .str "ok"⟩, st.table, pair.2, [payload]⟩) := by
    unfold vapiWebhook
    rw [h4]
    simp only [h5, if_true]
  rw [hb]
  refine ⟨rfl, ?_, ?_⟩
  · rcases hl : lookupUsable st.table (extractCallId m) with _ | j <;> simp [hl]
  · rcases hl : lookupUsable st.table (extractCallId m) with _ | j <;>
      simp only [hl] <;>
      exact ⟨_, rfl, by rw [jobId_key_callEnd, lookupField_build_jobId]⟩

/-- Characterization of a tool-call request carrying a single
`create_intake` invocation with a non-empty resolved call id: some job
id (the stored one if usable, a fresh draw otherwise) is written into
the table under the call id, and the single relayed record carries it
as "Job ID". -/
theorem createIntake_single_run (ctx : ToolCtx) (st : ServerState) (m tc : JVal)
    (c : String)
    (h1 : asToolList (getToolCalls m) = some [tc])
    (h2 : isStr (getToolName tc) "create_intake" = true)
    (h3 : resolveCallIdArg (getToolArgs tc) (extractCallId m) = c)
    (hc : c ≠ "") :
    ∃ jid, jid ≠ ""
      ∧ (vapiWebhook ctx st m).table = mapSet st.table c jid
      ∧ ∃ p, (vapiWebhook ctx st m).sent = [p]
        ∧ lookupField p "Job ID" = some (.str jid) := by
  have hb : vapiWebhook ctx st m =
      (let f := processToolCall ctx (extractCallId m) m ⟨[], st.table, st.k, []⟩ tc
       ⟨⟨200, .obj [("toolCallResults", .arr f.results)]⟩, f.table, f.k, f.sent⟩) := by
    unfold vapiWebhook
    rw [h1]
    rfl
  rw [hb]
  unfold processToolCall
  simp only [h2, if_true, h3, if_neg hc]
  rcases hm : mapGet st.table c with _ | s
  · simp only [hm]
    refine ⟨generateJobId (ctx.rnd st.k), generateJobId_ne_empty _, rfl, _, rfl, ?_⟩
    rw [jobId_key_create, lookupField_build_jobId]
  · by_cases hs : s = ""
    · simp only [hm, if_pos hs]
      refine ⟨generateJobId (ctx.rnd st.k), generateJobId_ne_empty _, rfl, _, rfl, ?_⟩
      rw [jobId_key_create, lookupField_build_jobId]
    · simp only [hm, if_neg hs]
      refine ⟨s, hs, rfl, _, rfl, ?_⟩
      rw [jobId_key_create, lookupField_build_jobId]


/-! ### Concrete probe inputs used by closed theorems -/

/-- A probe context: no sink URL, no base URL, the random source drawing
the value zero, a parser rejecting everything, a failing network. -/
def ctxProbe : ToolCtx := ⟨none, none, fun _ => [], fun _ => none, fun _ => .netErr, "t"⟩

/-- A probe context whose random draws produce pairwise distinct ids for
the first 36 draws. -/
def ctxDistinct : ToolCtx := ⟨none, none, fun k => [k % 36], fun _ => none, fun _ => .netErr, "t"⟩

/-- A `create_intake` tool call with tool-call id "t1" and no arguments. -/
def tcCreateAbc : JVal := .obj [("name", .str "create_intake"), ("id", .str "t1")]

/-- A tool-call event for call id "abc" carrying one `create_intake`. -/
def evCreateAbc : JVal :=
  .obj [("call", .obj [("id", .str "abc")]), ("toolCalls", .arr [tcCreateAbc])]

/-- A tool-call event carrying one `create_intake` and no call id at all. -/
def evCreateNoId : JVal := .obj [("toolCalls", .arr [tcCreateAbc])]

/-- An end-of-call-report event for call id "abc". -/
def evEndAbc : JVal := .obj [("type", .str "end-of-call-report"), ("callId", .str "abc")]

/-- An end-of-call-report event with no call id (extracted id ""). -/
def evEndPlain : JVal := .obj [("type", .str "end-of-call-report")]

/-- C6 counterexample: a `create_intake` tool call whose resolved call
id is empty leaves the correlation table unchanged, but no job id is
minted (the draw counter stays put) and the tool-call reply is the
error result "Missing callId" — not a freshly minted job id. -/
theorem createIntake_empty_callId_no_jobid :
    (vapiWebhook ctxProbe ⟨[], 0⟩ evCreateNoId).table = []
    ∧ (vapiWebhook ctxProbe ⟨[], 0⟩ evCreateNoId).k = 0
    ∧ (vapiWebhook ctxProbe ⟨[], 0⟩ evCreateNoId).resp.body
        = .obj [("toolCallResults", .arr [.obj [("toolCallId", .str "t1"),
            ("result", .obj [("ok", .bool false), ("error", .str "Missing callId")])]])] :=
  ⟨rfl, rfl, rfl⟩

/-- C6 amended: in the `create_intake` branch (the code realizing the
spec's `resolveOrCreate`), an empty resolved call id leaves the loop
state — correlation table, draw counter, relayed records — unchanged
and only appends the "Missing callId" error reply; no job id is
minted or returned. -/
theorem createIntake_empty_callId_frame (ctx : ToolCtx) (callId : String) (m : JVal)
    (a : LoopSt) (tc : JVal)
    (hname : isStr (getToolName tc) "create_intake" = true)
    (hempty : resolveCallIdArg (getToolArgs tc) callId = "") :
    processToolCall ctx callId m a tc =
      { a with results := a.results ++ [.obj [("toolCallId", getToolCallId tc),
          ("result", .obj [("ok", .bool false), ("error", .str "Missing callId")])]] } := by
  unfold processToolCall
  simp only [hname, if_true, hempty]
  rfl

/-- Witness for the amended C6 statement at a concrete empty-call-id
invocation. -/
theorem createIntake_empty_callId_frame_witness :
    processToolCall ctxProbe "" (.obj []) ⟨[], [], 0, []⟩ tcCreateAbc
      = ⟨[.obj [("toolCallId", .str "t1"),
          ("result", .obj [("ok", .bool false), ("error", .str "Missing callId")])]],
         [], 0, []⟩ :=
  createIntake_empty_callId_frame ctxProbe "" (.obj []) ⟨[], [], 0, []⟩ tcCreateAbc rfl rfl

/-- Each loop iteration appends exactly one reply entry, carrying the
extracted tool-call id; when the tool name is neither handled tool,
the appended entry is exactly the `Unhandled tool` error entry. -/
theorem processToolCall_pushes_one (ctx : ToolCtx) (callId : String) (m : JVal)
    (a : LoopSt) (tc : JVal) :
    ∃ R, (processToolCall ctx callId m a tc).results
        = a.results ++ [.obj [("toolCallId", getToolCallId tc), ("result", R)]]
      ∧ (isStr (getToolName tc) "create_intake" = false →
         isStr (getToolName tc) "update_intake" = false →
         R = .obj [("ok", .bool false),
                   ("error", .str ("Unhandled tool: " ++ jsToString (getToolName tc)))]) := by
  by_cases hcr : isStr (getToolName tc) "create_intake" = true
  · by_cases hemp : resolveCallIdArg (getToolArgs tc) callId = ""
    · exact ⟨_, by unfold processToolCall; simp only [hcr, if_true, hemp]; rfl,
        fun hf _ => absurd hcr (by rw [hf]; exact Bool.false_ne_true)⟩
    · exact ⟨_, by unfold processToolCall; simp only [hcr, if_true, if_neg hemp]; rfl,
        fun hf _ => absurd hcr (by rw [hf]; exact Bool.false_ne_true)⟩
  · rw [Bool.not_eq_true] at hcr
    by_cases hup : isStr (getToolName tc) "update_intake" = true
    · by_cases hj : jsTrim (jsToString (jsOrV (getProp (getToolArgs tc) "jobId")
          (jsOrV (getProp (getToolArgs tc) "Job ID")
            (jsOrV (Option.map JVal.str
              (if resolveCallIdArg (getToolArgs tc) callId = "" then none
               else mapGet a.table (resolveCallIdArg (getToolArgs tc) callId)))
              (.str ""))))) = ""
      · exact ⟨_, by unfold processToolCall; simp only [hcr, Bool.false_eq_true, if_false, hup, if_true, if_pos hj]; rfl,
          fun _ hg => absurd hup (by rw [hg]; exact Bool.false_ne_true)⟩
      · exact ⟨_, by unfold processToolCall; simp only [hcr, Bool.false_eq_true, if_false, hup, if_true, if_neg hj]; rfl,
          fun _ hg => absurd hup (by rw [hg]; exact Bool.false_ne_true)⟩
    · rw [Bool.not_eq_true] at hup
      exact ⟨_, by unfold processToolCall; simp only [hcr, hup, Bool.false_eq_true, if_false]; rfl,
        fun _ _ => rfl⟩

/-- The tool-call loop appends one matching reply entry per tool call,
in order. -/
theorem toolLoop_results (ctx : ToolCtx) (callId : String) (m : JVal) :
    ∀ (tcs : List JVal) (a : LoopSt),
      ∃ l, (tcs.foldl (processToolCall ctx callId m) a).results = a.results ++ l
        ∧ List.Forall₂ toolEntryMatches tcs l := by
  intro tcs
  induction tcs with
  | nil => exact fun a => ⟨[], by simp, List.Forall₂.nil⟩
  | cons tc tl ih =>
      intro a
      obtain ⟨R, he, hunk⟩ := processToolCall_pushes_one ctx callId m a tc
      obtain ⟨l, hl, hf⟩ := ih (processToolCall ctx callId m a tc)
      refine ⟨.obj [("toolCallId", getToolCallId tc), ("result", R)] :: l, ?_,
        List.Forall₂.cons ⟨rfl, fun hf1 hf2 => by rw [hunk hf1 hf2]; rfl⟩ hf⟩
      calc (List.foldl (processToolCall ctx callId m) a (tc :: tl)).results
          = (List.foldl (processToolCall ctx callId m)
              (processToolCall ctx callId m a tc) tl).results := rfl
        _ = (processToolCall ctx callId m a tc).results ++ l := hl
        _ = (a.results ++ [.obj [("toolCallId", getToolCallId tc), ("result", R)]]) ++ l := by
              rw [he]
        _ = a.results ++ (.obj [("toolCallId", getToolCallId tc), ("result", R)] :: l) := by
              simp

/-- C9: whenever the extracted tool-call list is a non-empty array, the
response is 200 with a `toolCallResults` array holding exactly one
entry per tool call, in order, each carrying that call's extracted
tool-call id; unhandled tool names yield the ok-false error entry
instead of being omitted. -/
theorem toolCallResults_one_per_call (ctx : ToolCtx) (st : ServerState) (m : JVal)
    (xs : List JVal) (h : asToolList (getToolCalls m) = some xs) :
    ∃ l, (vapiWebhook ctx st m).resp
        = ⟨200, .obj [("toolCallResults", .arr l)]⟩
      ∧ List.Forall₂ toolEntryMatches xs l := by
  obtain ⟨l, hl, hf⟩ := toolLoop_results ctx (extractCallId m) m xs ⟨[], st.table, st.k, []⟩
  refine ⟨l, ?_, hf⟩
  have hb : (vapiWebhook ctx st m).resp
      = ⟨200, .obj [("toolCallResults",
          .arr (xs.foldl (processToolCall ctx (extractCallId m) m)
            ⟨[], st.table, st.k, []⟩).results)]⟩ := by
    unfold vapiWebhook
    rw [h]
  rw [hb, hl]
  simp

/-- Witness for C9 on a three-call event: a `create_intake` missing its
call id, an unknown tool, and a nameless tool call. -/
theorem toolCallResults_one_per_call_witness :
    ∃ l, (vapiWebhook ctxProbe ⟨[], 0⟩
        (.obj [("toolCalls", .arr [tcCreateAbc,
          .obj [("name", .str "frobnicate"), ("id", .str "t2")],
          .obj [("id", .str "t3")]])])).resp
        = ⟨200, .obj [("toolCallResults", .arr l)]⟩
      ∧ List.Forall₂ toolEntryMatches
          [tcCreateAbc,
           .obj [("name", .str "frobnicate"), ("id", .str "t2")],
           .obj [("id", .str "t3")]] l :=
  toolCallResults_one_per_call ctxProbe ⟨[], 0⟩ _ _ rfl

/-- C1: a `create_intake` tool-call event resolving to a non-empty call
id, followed by an end-of-call-report event extracting the same call
id, leaves exactly one correlation entry for that id and relays two
records carrying the same "Job ID". -/
theorem createIntake_then_endOfCall (ctx1 ctx2 : ToolCtx) (st : ServerState)
    (m1 tc m2 : JVal) (c : String)
    (h1 : asToolList (getToolCalls m1) = some [tc])
    (h2 : isStr (getToolName tc) "create_intake" = true)
    (h3 : resolveCallIdArg (getToolArgs tc) (extractCallId m1) = c)
    (hc : c ≠ "")
    (h4 : asToolList (getToolCalls m2) = none)
    (h5 : isStrP (getProp m2 "type") "end-of-call-report" = true)
    (h6 : extractCallId m2 = c)
    (hcount : countKey st.table c ≤ 1) :
    countKey (vapiWebhook ctx2 ⟨(vapiWebhook ctx1 st m1).table,
        (vapiWebhook ctx1 st m1).k⟩ m2).table c = 1
    ∧ ∃ p1 p2 jid,
        (vapiWebhook ctx1 st m1).sent = [p1]
        ∧ (vapiWebhook ctx2 ⟨(vapiWebhook ctx1 st m1).table,
            (vapiWebhook ctx1 st m1).k⟩ m2).sent = [p2]
        ∧ lookupField p1 "Job ID" = some (.str jid)
        ∧ lookupField p2 "Job ID" = some (.str jid) := by
  obtain ⟨jid, hjid, htab, p1, hsent1, hp1⟩ :=
    createIntake_single_run ctx1 st m1 tc c h1 h2 h3 hc
  obtain ⟨htab2, hk2, p2, hsent2, hp2⟩ :=
    endOfCall_run ctx2 ⟨(vapiWebhook ctx1 st m1).table, (vapiWebhook ctx1 st m1).k⟩ m2 h4 h5
  have hlu : lookupUsable (vapiWebhook ctx1 st m1).table (extractCallId m2) = some jid := by
    rw [h6, htab]
    exact lookupUsable_mapSet st.table c jid hc hjid
  constructor
  · rw [htab2]
    show countKey (vapiWebhook ctx1 st m1).table c = 1
    rw [htab]
    exact countKey_mapSet st.table c jid hcount
  · refine ⟨p1, p2, jid, hsent1, hsent2, hp1, ?_⟩
    rw [hp2]
    show some (JVal.str (match lookupUsable (vapiWebhook ctx1 st m1).table (extractCallId m2) with
      | some j => j
      | none => generateJobId (ctx2.rnd (vapiWebhook ctx1 st m1).k))) = some (JVal.str jid)
    rw [hlu]

/-- Witness for C1: call id "abc", empty initial table. -/
theorem createIntake_then_endOfCall_witness :
    countKey (vapiWebhook ctxProbe ⟨(vapiWebhook ctxProbe ⟨[], 0⟩ evCreateAbc).table,
        (vapiWebhook ctxProbe ⟨[], 0⟩ evCreateAbc).k⟩ evEndAbc).table "abc" = 1
    ∧ ∃ p1 p2 jid,
        (vapiWebhook ctxProbe ⟨[], 0⟩ evCreateAbc).sent = [p1]
        ∧ (vapiWebhook ctxProbe ⟨(vapiWebhook ctxProbe ⟨[], 0⟩ evCreateAbc).table,
            (vapiWebhook ctxProbe ⟨[], 0⟩ evCreateAbc).k⟩ evEndAbc).sent = [p2]
        ∧ lookupField p1 "Job ID" = some (.str jid)
        ∧ lookupField p2 "Job ID" = some (.str jid) :=
  createIntake_then_endOfCall ctxProbe ctxProbe ⟨[], 0⟩ evCreateAbc tcCreateAbc evEndAbc
    "abc" rfl rfl rfl (by decide) rfl rfl rfl (by decide)

/-- C10: an end-of-call-report never modifies the correlation table;
with a usable stored mapping the stored job id is reused by a pure
read (no draw); without one a fresh id is drawn but not stored, so
two consecutive reports for the same unmapped call id relay records
with different job ids (whenever the two draws differ, which is what
freshly minted random ids provide up to collision). -/
theorem endOfCall_frame :
    (∀ (ctx : ToolCtx) (st : ServerState) (m : JVal),
      asToolList (getToolCalls m) = none →
      isStrP (getProp m "type") "end-of-call-report" = true →
      (vapiWebhook ctx st m).table = st.table)
    ∧ (∀ (ctx : ToolCtx) (st : ServerState) (m : JVal) (j : String),
      asToolList (getToolCalls m) = none →
      isStrP (getProp m "type") "end-of-call-report" = true →
      lookupUsable st.table (extractCallId m) = some j →
      (vapiWebhook ctx st m).k = st.k
      ∧ ∃ p, (vapiWebhook ctx st m).sent = [p]
          ∧ lookupField p "Job ID" = some (.str j))
    ∧ (∀ (ctx : ToolCtx) (st : ServerState) (m1 m2 : JVal),
      asToolList (getToolCalls m1) = none →
      asToolList (getToolCalls m2) = none →
      isStrP (getProp m1 "type") "end-of-call-report" = true →
      isStrP (getProp m2 "type") "end-of-call-report" = true →
      extractCallId m2 = extractCallId m1 →
      lookupUsable st.table (extractCallId m1) = none →
      generateJobId (ctx.rnd st.k) ≠ generateJobId (ctx.rnd (st.k + 1)) →
      ∃ p1 p2,
        (vapiWebhook ctx st m1).sent = [p1]
        ∧ (vapiWebhook ctx ⟨(vapiWebhook ctx st m1).table,
            (vapiWebhook ctx st m1).k⟩ m2).sent = [p2]
        ∧ lookupField p1 "Job ID" ≠ lookupField p2 "Job ID") := by
  refine ⟨fun ctx st m h4 h5 => (endOfCall_run ctx st m h4 h5).1, ?_, ?_⟩
  · intro ctx st m j h4 h5 hlu
    obtain ⟨_, hk, p, hs, hp⟩ := endOfCall_run ctx st m h4 h5
    rw [hlu] at hk hp
    exact ⟨hk, p, hs, hp⟩
  · intro ctx st m1 m2 h4a h4b h5a h5b h6 hnone hdist
    obtain ⟨htab1, hk1, p1, hs1, hp1⟩ := endOfCall_run ctx st m1 h4a h5a
    obtain ⟨htab2, hk2, p2, hs2, hp2⟩ :=
      endOfCall_run ctx ⟨(vapiWebhook ctx st m1).table, (vapiWebhook ctx st m1).k⟩ m2 h4b h5b
    rw [hnone] at hk1 hp1
    have hlu2 : lookupUsable (vapiWebhook ctx st m1).table (extractCallId m2) = none := by
      rw [h6, htab1]
      exact hnone
    rw [hlu2] at hp2
    refine ⟨p1, p2, hs1, hs2, ?_⟩
    rw [hp1, hp2]
    show some (JVal.str (generateJobId (ctx.rnd st.k)))
        ≠ some (JVal.str (generateJobId (ctx.rnd (vapiWebhook ctx st m1).k)))
    rw [show (vapiWebhook ctx st m1).k = st.k + 1 from hk1]
    intro hcontra
    apply hdist
    injection hcontra with hx
    exact JVal.str.inj hx

/-- Witness for C10 at concrete inputs: a mapped call id is reused
without a draw, and two reports for an unmapped id get distinct ids
under a random source whose first two draws differ. -/
theorem endOfCall_frame_witness :
    (vapiWebhook ctxProbe ⟨[], 0⟩ evEndPlain).table = []
    ∧ ((vapiWebhook ctxProbe ⟨[("abc", "job_x")], 0⟩ evEndAbc).k = 0
       ∧ ∃ p, (vapiWebhook ctxProbe ⟨[("abc", "job_x")], 0⟩ evEndAbc).sent = [p]
           ∧ lookupField p "Job ID" = some (.str "job_x"))
    ∧ (∃ p1 p2,
        (vapiWebhook ctxDistinct ⟨[], 0⟩ evEndPlain).sent = [p1]
        ∧ (vapiWebhook ctxDistinct ⟨(vapiWebhook ctxDistinct ⟨[], 0⟩ evEndPlain).table,
            (vapiWebhook ctxDistinct ⟨[], 0⟩ evEndPlain).k⟩ evEndPlain).sent = [p2]
        ∧ lookupField p1 "Job ID" ≠ lookupField p2 "Job ID") :=
  ⟨endOfCall_frame.1 ctxProbe ⟨[], 0⟩ evEndPlain rfl rfl,
   endOfCall_frame.2.1 ctxProbe ⟨[("abc", "job_x")], 0⟩ evEndAbc "job_x" rfl rfl rfl,
   endOfCall_frame.2.2 ctxDistinct ⟨[], 0⟩ evEndPlain evEndPlain rfl rfl rfl rfl rfl rfl
     (by decide)⟩


end JD


